import Mathlib

/-!
Verification of the reconciliation core of the grade-cleaning repository
(`grade_cleaner.py`): the data-start/identifier-column detector
(`find_data_start_and_id_column`), the component-to-column matcher
(`find_matching_column_index`) and the per-file reconciliation engine
(`process_consolidated_file`).

The Python functions are shallowly embedded: a CSV file already parsed by
`csv.reader` is a `List (List String)` of cells (a possibly ragged grid);
Python string operations (`strip`, `upper`, `lower`, `startswith`, `in`,
`split`) are modelled on the underlying character lists; `float(...)` is
modelled as an exact rational parser for the decimal/exponent literals the
pipeline feeds it.  Per the specification (section 9), the pandas dataframe
used by the source is modelled as the plain grid of string cells it was read
from: data rows are the grid rows below the header row, cells are addressed
positionally, and pandas' per-column numeric type inference is the identity
on the string cells (all inputs appearing in the theorems below are ones on
which pandas' round-trip through inferred types is the identity).
-/

namespace GradeCleaner

/-- Characters kept by Python `str.strip()` (whitespace removed at both
ends).  ASCII whitespace suffices for every string handled here. -/
def trimChars (cs : List Char) : List Char :=
  ((cs.dropWhile Char.isWhitespace).reverse.dropWhile Char.isWhitespace).reverse

/-- Python `s.strip()`. -/
def pyStrip (s : String) : String := String.mk (trimChars s.data)

/-- Python `s.upper()` (ASCII; every string handled here is ASCII). -/
def pyUpper (s : String) : String := String.mk (s.data.map Char.toUpper)

/-- Python `s.lower()` (ASCII). -/
def pyLower (s : String) : String := String.mk (s.data.map Char.toLower)

/-- Python `s.startswith(p)`. -/
def pyStartsWith (s p : String) : Bool := p.data.isPrefixOf s.data

/-- Python `sub in s` (substring containment). -/
def pyContains (s sub : String) : Bool := decide (sub.data <:+: s.data)

/-- The cell test of `grade_cleaner.py` line 79:
`re.fullmatch(r'\d{3,6}', cell)` — the whole cell is 3 to 6 decimal
digits. -/
def isIdPattern (s : String) : Bool :=
  decide (3 ≤ s.data.length) && decide (s.data.length ≤ 6) &&
    s.data.all Char.isDigit

/-- Inner row loop of `find_data_start_and_id_column` (lines 72-87) for one
column index `col`, carried state `(consec, firstMatch)` mirroring the
Python locals `consecutive_matches` / `first_match_row`; `rowIdx` is the
absolute index of the head of `rows` in the whole grid.  The result is
`some fm` when the Python `return first_match_row, col_idx` statement runs
(with `first_match_row = fm`), and `none` when the row loop finishes.
Faithful detail: when the row is shorter than `col` the Python body does
nothing at all — the run state is carried over unchanged, it is NOT reset
(the `else` on line 85 belongs to the regex test, not to the bounds
test). -/
def scanRows (rows : List (List String)) (col rowIdx consec : Nat)
    (firstMatch : Option Nat) : Option (Option Nat) :=
  match rows with
  | [] => none
  | r :: rest =>
    if hcol : col < r.length then
      let cell := pyStrip (r.get ⟨col, hcol⟩)
      if isIdPattern cell then
        let fm := if consec = 0 then some rowIdx else firstMatch
        if 2 ≤ consec + 1 then some fm
        else scanRows rest col (rowIdx + 1) (consec + 1) fm
      else scanRows rest col (rowIdx + 1) 0 none
    else scanRows rest col (rowIdx + 1) consec firstMatch

/-- Line 69: `max(len(r) for r in lines)` (0 for an empty grid, a case the
caller has already excluded). -/
def maxColsOf (lines : List (List String)) : Nat :=
  lines.foldr (fun r acc => max r.length acc) 0

/-- Outer column loop of `find_data_start_and_id_column` (line 71): try the
column indexes in increasing order; the first column whose row scan hits
the return statement ends the whole function. -/
def tryCols (lines : List (List String)) : List Nat → Option (Option Nat × Nat)
  | [] => none
  | c :: rest =>
    match scanRows lines c 0 0 none with
    | some fm => some (fm, c)
    | none => tryCols lines rest

/-- Embedding of `find_data_start_and_id_column` (lines 56-90) on an
already-parsed grid.  Returns the pair `(first_match_row, col_idx)`; the
Python `(None, None)` is `(none, none)`. -/
def find_data_start_and_id_column (lines : List (List String)) :
    Option Nat × Option Nat :=
  if lines.isEmpty then (none, none)
  else
    match tryCols lines (List.range (maxColsOf lines)) with
    | some (fm, c) => (fm, some c)
    | none => (none, none)

/-! Component matcher (`find_matching_column_index`, lines 92-124). -/

/-- The heuristic rule table of lines 98-110, in Python dict insertion
order: label-prefix tuples mapped to header-keyword lists. -/
def rules : List (List String × List String) :=
  [ (["V-", "VEN"], ["VENTURE", "3 DAY"]),
    (["PRO-"], ["PROJECT", "2 DAY"]),
    (["IEAP-2-WR", "WR", "W-"], ["WRITING"]),
    (["INTER-2", "G-"], ["GRAMMAR"]),
    (["RE-", "R-"], ["READING"]),
    (["COMP-"], ["COMPUTER", "COMP"]),
    (["EW-"], ["ESSAY", "WRITING"]),
    (["BP-"], ["BP"]),
    (["FC-"], ["FC", "FOUR CORNERS"]),
    (["EC-"], ["EC", "ENGL IN COMMON"]),
    (["HCOMP-"], ["COMPOSITION"]) ]

/-- Header normalization of line 95: `str(h).upper().strip()`. -/
def normHeader (h : String) : String := pyStrip (pyUpper h)

/-- Keyword loop of lines 120-123: for each keyword in order, return the
index of the first header that contains it as a substring. -/
def findKeyword (keys headers : List String) : Option Nat :=
  match keys with
  | [] => none
  | k :: ks =>
    match headers.findIdx? (fun h => pyContains h k) with
    | some i => some i
    | none => findKeyword ks headers

/-- Rule loop of lines 118-123.  Faithful detail: when a rule's label
test succeeds but none of its keywords hits a header, the Python loop
simply continues with the NEXT rule (there is no early `return None`). -/
def applyRules (cname : String) (headers : List String) :
    List (List String × List String) → Option Nat
  | [] => none
  | (keys, hkeys) :: rest =>
    if keys.any (fun k => pyStartsWith cname k) then
      match findKeyword hkeys headers with
      | some i => some i
      | none => applyRules cname headers rest
    else applyRules cname headers rest

/-- Embedding of `find_matching_column_index` (lines 92-124).  Faithful
detail: line 94 uppercases the component name but does NOT strip it;
headers are uppercased and stripped (line 95). -/
def find_matching_column_index (component_name : String)
    (header_columns : List String) : Option Nat :=
  let cname := pyUpper component_name
  let headersU := header_columns.map normHeader
  match headersU.findIdx? (fun h => h == cname) with
  | some i => some i
  | none => applyRules cname headersU rules

/-! Reconciliation engine (`process_consolidated_file`, lines 127-200). -/

/-- Does the character list contain the two-character delimiter
`!$` as a contiguous substring. -/
def hasDelim (cs : List Char) : Bool := decide (['!', '$'] <:+: cs)

/-- Python `cs.split("!$")[-1]`: the suffix after the LAST occurrence of
the delimiter, the whole list when the delimiter is absent (the `split` method of
Python never yields an empty list, so the `except IndexError` on line
185 of the source is unreachable). -/
def afterLastDelim : List Char → List Char
  | [] => []
  | [c] => [c]
  | c :: d :: rest =>
    if c = '!' ∧ d = '$' then
      if hasDelim rest then afterLastDelim rest else rest
    else
      if hasDelim (d :: rest) then afterLastDelim (d :: rest)
      else c :: d :: rest

/-- Line 184: `component_name = classid.split('!$')[-1]`. -/
def componentOf (classid : String) : String :=
  String.mk (afterLastDelim classid.data)

/-- Numeric value of a digit list (most significant first). -/
def digitsVal (cs : List Char) : Nat :=
  cs.foldl (fun a c => a * 10 + (c.toNat - 48)) 0

/-- Leading sign of a Python float literal: `(negative?, rest)`. -/
def splitSign : List Char → Bool × List Char
  | '+' :: rest => (false, rest)
  | '-' :: rest => (true, rest)
  | cs => (false, cs)

/-- Leading digit run and the remainder. -/
def splitDigits (cs : List Char) : List Char × List Char :=
  (cs.takeWhile Char.isDigit, cs.dropWhile Char.isDigit)

/-- Signed decimal integer filling the whole input (the exponent of a
float literal). -/
def parseSignedInt (cs : List Char) : Option Int :=
  let (neg, cs1) := splitSign cs
  let (ds, rest) := splitDigits cs1
  if ds.isEmpty || !rest.isEmpty then none
  else some (if neg then -(digitsVal ds : Int) else (digitsVal ds : Int))

/-- Optional exponent tail `e<signed int>` / `E<signed int>` of a float
literal; `some 0` for an empty tail. -/
def parseExpTail : List Char → Option Int
  | [] => some 0
  | 'e' :: rest => parseSignedInt rest
  | 'E' :: rest => parseSignedInt rest
  | _ => none

/-- Model of Python `float(s)` on the finite decimal / exponent literals
the pipeline feeds it: `[sign] digits [. digits] [e/E signed-digits]`
with at least one mantissa digit, valued exactly as a rational.  The
special spellings `inf` / `nan` (and digit underscores) are not modelled:
pandas already turns the NA spellings into missing cells before `float`
is ever called on them, so they never reach this parser in the source
pipeline. -/
def parseFloat (s : String) : Option ℚ :=
  let (neg, cs1) := splitSign s.data
  let (ip, r1) := splitDigits cs1
  let (fp, r2) :=
    match r1 with
    | '.' :: rest => splitDigits rest
    | _ => ([], r1)
  if ip.isEmpty && fp.isEmpty then none
  else
    match parseExpTail r2 with
    | none => none
    | some e =>
      let mant : Int := (digitsVal ip * 10 ^ fp.length + digitsVal fp : Nat)
      let sm : Int := if neg then -mant else mant
      if 0 ≤ e then some (Rat.divInt (sm * 10 ^ e.toNat) (10 ^ fp.length))
      else some (Rat.divInt sm (10 ^ (fp.length + (-e).toNat)))

/-- The rational `n / 10 ^ k`, the exact value of a decimal literal with
`k` places; used to write expected grades in the theorems below. -/
def decVal (n : Int) (k : Nat) : ℚ := Rat.divInt n (10 ^ k)

/-- One row of the legacy roster restricted to the columns the engine
reads: `student_id`, `termid`, `classid` (spec: LegacyGradeSlot; the
`term_startdate` column is only used by the out-of-scope file-to-term
grouping in `main`). -/
structure LegacySlot where
  student_id : String
  termid : String
  classid : String
deriving DecidableEq, Repr

/-- One emitted update (spec: GradeUpdate), carrying the exact parsed
grade; the sink prints it with 3 decimal places, which is exact for
every grade appearing below. -/
structure GradeUpdate where
  student_id : String
  classid : String
  grade : ℚ
deriving DecidableEq, Repr

/-- Observable outcome of `process_consolidated_file` for one file and
term: the three skip paths (locator failure, the ambiguous-header manual
review signal of lines 145-149, an exception inside the `try` of lines
139-168) and the list of emitted updates in emission order. -/
inductive ProcessResult where
  | notFound
  | ambiguousHeaders
  | readError
  | ok (updates : List GradeUpdate)
deriving DecidableEq, Repr

/-- Python list indexing `rows[i]` with a possibly negative index: a
negative index counts from the end (one wrap); out of range is `none`
(an `IndexError` in Python). -/
def pyGetRow (rows : List (List String)) (i : Int) : Option (List String) :=
  if 0 ≤ i then rows.get? i.toNat
  else if 0 ≤ i + rows.length then rows.get? (i + rows.length).toNat
  else none

/-- The stop-word list of line 151. -/
def stop_words : List String :=
  ["total", "grade", "unnamed", "id", "name", "surname", "first", "last"]

/-- Lines 152-155: `grade_columns_with_indices` — the enumerated header
cells, excluding the identifier column, any header containing a stop
word (case-insensitive substring), and blank headers. -/
def gradeColumnsWithIndices (header_columns : List String)
    (id_col_idx : Nat) : List (Nat × String) :=
  header_columns.enum.filter (fun p =>
    decide (p.1 ≠ id_col_idx) &&
    !(stop_words.any (fun sw => pyContains (pyLower p.2) sw)) &&
    decide (pyStrip p.2 ≠ ""))

/-- Inner slot loop body, lines 181-200: derive the component label from
the slot's classid, match it against the candidate headers, read the
cell of the matched column (positionally, via the original column index
recorded in `grade_cols`), and emit one update when the trimmed cell is
non-empty and parses as a number.  A pandas missing cell (short row) is
the empty string here, and falls into the same skip branch as in the
source (`pd.notna` fails there, the empty-after-strip test here). -/
def emitForSlot (grade_cols : List (Nat × String)) (row : List String)
    (student_id : String) (slot : LegacySlot) : List GradeUpdate :=
  let component_name := componentOf slot.classid
  match find_matching_column_index component_name (grade_cols.map Prod.snd) with
  | none => []
  | some mi =>
    match grade_cols.get? mi with
    | none => []
    | some (orig_idx, _) =>
      let grade := pyStrip (row.getD orig_idx "")
      if grade = "" then []
      else
        match parseFloat grade with
        | none => []
        | some q => [⟨student_id, slot.classid, q⟩]

/-- Row loop body, lines 171-200: read the (already numeric-validated)
student id, select this student's legacy slots for the current term in
roster order, and run the slot loop. -/
def processRow (termid : String) (legacy : List LegacySlot)
    (grade_cols : List (Nat × String)) (id_col_idx : Nat)
    (row : List String) : List GradeUpdate :=
  let student_id := pyStrip (row.getD id_col_idx "")
  if student_id = "" then []
  else
    (legacy.filter (fun sl =>
      sl.student_id == student_id && sl.termid == termid)).flatMap
      (emitForSlot grade_cols row student_id)

/-- Embedding of `process_consolidated_file` (lines 127-200) on the
already-parsed grid.  The pandas dataframe of line 159 is modelled per
spec section 9 as the grid rows strictly below the header row with
positional cell access: its data rows are exactly the grid rows from
`start_row` on, filtered (line 163) to those whose identifier cell
parses as a number.  When the located `start_row` is 0 the Python header
index is -1: the header-row read at line 143 then yields the LAST row
(negative indexing), the ambiguity check runs against it, and
`pd.read_csv(header=-1)` at line 159 raises `ValueError`, caught by the
`except` — the `readError` outcome here. -/
def process_consolidated_file (grid : List (List String)) (termid : String)
    (legacy : List LegacySlot) : ProcessResult :=
  match find_data_start_and_id_column grid with
  | (some start_row, some id_col_idx) =>
    let header_row_index : Int := (start_row : Int) - 1
    match pyGetRow grid header_row_index with
    | none => .readError
    | some header_columns =>
      let headers_upper := header_columns.map (fun h => pyStrip (pyUpper h))
      if headers_upper.contains "2 DAY" && headers_upper.contains "3 DAY" then
        .ambiguousHeaders
      else if header_row_index < 0 then .readError
      else
        let grade_cols := gradeColumnsWithIndices header_columns id_col_idx
        let dataRows := (grid.drop start_row).filter
          (fun r => (parseFloat (pyStrip (r.getD id_col_idx ""))).isSome)
        .ok (dataRows.flatMap (processRow termid legacy grade_cols id_col_idx))
  | _ => .notFound

/-- The grid of the end-to-end scenario of the specification (section 8,
last bullet): header row then a single data row. -/
def e2eGrid : List (List String) := [["ID", "3 DAY"], ["10293", "87.5"]]

/-- The legacy roster of the end-to-end scenario. -/
def e2eLegacy : List LegacySlot := [⟨"10293", "T1", "ENGL101!$V-PRO-3"⟩]

/-- The end-to-end grid extended with a second data row for a student
absent from the roster, giving the locator the two consecutive
identifier rows it requires. -/
def e2eGrid2 : List (List String) :=
  [["ID", "3 DAY"], ["10293", "87.5"], ["10418", "90"]]

/-! Claim-side (specification-side) definitions, for the refinement
claims that compare the code against the specification's wording. -/

/-- Does cell `(r, c)` of the grid exist and qualify as an identifier
candidate (3-6 digits after trimming)?  An absent cell (row too short,
or row index out of range) does not qualify. -/
def qualifies (grid : List (List String)) (r c : Nat) : Bool :=
  match (grid.get? r).bind (fun row => row.get? c) with
  | some cell => isIdPattern (pyStrip cell)
  | none => false

/-- Two consecutive rows `r`, `r + 1` both qualify in column `c`: a
qualifying run starting at row `r` in the sense of the specification
(section 4.1). -/
def hasRunAt (grid : List (List String)) (c r : Nat) : Bool :=
  qualifies grid r c && qualifies grid (r + 1) c

/-- Index of the first `r` with `qs[r]` and `qs[r+1]` both true, on the
per-row qualification list of one column. -/
def firstRunIdx : List Bool → Option Nat
  | [] => none
  | [_] => none
  | b :: b2 :: rest =>
    if b && b2 then some 0
    else (firstRunIdx (b2 :: rest)).map (fun k => k + 1)

/-- Does the cell of `row` in column `c` qualify as an identifier
candidate (an absent cell — row shorter than the column — does not). -/
def cellQ (c : Nat) (row : List String) : Bool :=
  isIdPattern (pyStrip (row.getD c ""))

/-- Modelled from the spec (section 4.1): the table-location search as the
specification words it — scan column indexes in increasing order up to the
grid's maximum row width; within a column, rows top to bottom; a cell of a
row shorter than the column index never qualifies and breaks a run exactly
as a non-qualifying cell does; the moment two consecutive rows qualify,
return (first row of that run, current column); not-found otherwise. -/
def specLocator (grid : List (List String)) : Option (Nat × Nat) :=
  (List.range (maxColsOf grid)).findSome? (fun c =>
    (firstRunIdx (grid.map (cellQ c))).map (fun r => (r, c)))

/-- Modelled from the spec (section 4.3, steps 2 and 3): only the FIRST
rule (in table order) whose label-prefix set matches the normalized label
is consulted; its keywords are scanned in order against the candidate
headers; if that rule's keywords hit no header the result is none — no
later rule is consulted and there is no fallback column. -/
def spec_heuristic_match (cname : String) (headers : List String) :
    Option Nat :=
  match rules.find? (fun rp => rp.1.any (fun k => pyStartsWith cname k)) with
  | some rp => findKeyword rp.2 headers
  | none => none

/-- No label prefix of `ps` is a prefix of one of `qs` or the other way
round, so no label can start with a member of both sets. -/
def pfxIndep (ps qs : List String) : Bool :=
  ps.all (fun a => qs.all (fun b =>
    !(a.data.isPrefixOf b.data) && !(b.data.isPrefixOf a.data)))

/-- Pairwise prefix-independence of a rule table. -/
def pairwiseIndep : List (List String × List String) → Bool
  | [] => true
  | r :: rest => rest.all (fun r2 => pfxIndep r.1 r2.1) && pairwiseIndep rest

/-! Concrete grids and rosters used by individual claims. -/

/-- Ragged grid for the locator claims: column 0 holds qualifying cells in
rows 0 and 2 separated by an EMPTY row, columns 0 and 1 have no two
consecutive qualifying rows anywhere, and column 2 has a genuine
qualifying run at rows 5-6. -/
def c2Grid : List (List String) :=
  [["123"], [], ["456"], ["x"], ["x"], ["x", "x", "111"], ["x", "x", "222"]]

/-- Minimal grid whose first two rows already qualify in column 0. -/
def c3Grid : List (List String) := [["123"], ["456"]]

/-- Rectangular grid for the C3 witness: ordinary header plus two data
rows. -/
def c3wGrid : List (List String) :=
  [["Code", "Score"], ["321", "50"], ["654", "60"]]

/-- Two qualifying cells separated by an empty (hence short) row. -/
def c4Grid : List (List String) := [["123"], [], ["456"]]

/-- The same grid with the middle row PRESENT but non-qualifying. -/
def c4GridFull : List (List String) := [["123"], ["x"], ["456"]]

/-- Grid for the malformed-classid claim: one roster student and one
extra student to satisfy the locator. -/
def c5Grid : List (List String) :=
  [["ID", "3 DAY"], ["20293", "77.5"], ["20418", "80"]]

/-- Roster whose single slot has a classid WITHOUT the `!$` delimiter. -/
def c5Legacy : List LegacySlot := [⟨"20293", "T2", "V-PRO-3"⟩]

/-- Grid whose header row holds both session-length labels, above
otherwise perfectly valid data rows. -/
def c6Grid : List (List String) :=
  [["ID", "2 day ", " 3 DAY"], ["777", "1", "2"], ["888", "3", "4"]]

/-- Rectangular grid for the C2 witness: the identifier run sits in
column 1. -/
def c2wGrid : List (List String) := [["abc", "111"], ["x", "222"]]

/-! Sanity checks: concrete evaluations of the embedded functions. -/

example : find_data_start_and_id_column [["ID", "3 DAY"], ["10293", "87.5"]] =
    (none, none) := by decide

example : find_data_start_and_id_column [["123"], ["456"]] =
    (some 0, some 0) := by decide

example : find_data_start_and_id_column [["123"], [], ["456"]] =
    (some 0, some 0) := by decide

example : find_matching_column_index "WRITING"
    ["WRITING", "IEAP WRITING TEST"] = some 0 := by decide

example : find_matching_column_index "V-PRO-3"
    ["NAME", "3 DAY", "TOTAL"] = some 1 := by decide

example : find_matching_column_index " WRITING" ["WRITING"] = none := by
  decide

example : componentOf "ENGL101!$V-PRO-3" = "V-PRO-3" := by decide
example : componentOf "V-PRO-3" = "V-PRO-3" := by decide
example : componentOf "A!$B!$C" = "C" := by decide

example : parseFloat "87.5" = some (decVal 875 1) := by decide
example : parseFloat "N/A" = none := by decide
example : parseFloat "" = none := by decide
example : parseFloat "90" = some (decVal 90 0) := by decide
example : parseFloat "-1.5e2" = some (decVal (-150) 0) := by decide
example : parseFloat "1." = some (decVal 1 0) := by decide
example : parseFloat "." = none := by decide
example : parseFloat "+" = none := by decide

example : gradeColumnsWithIndices
    ["ID", "Name", "Total", "Writing", "Unnamed: 4"] 0 =
    [(3, "Writing")] := by decide

example : process_consolidated_file e2eGrid "T1" e2eLegacy =
    .notFound := by decide

example : process_consolidated_file e2eGrid2 "T1" e2eLegacy =
    .ok [⟨"10293", "ENGL101!$V-PRO-3", decVal 875 1⟩] := by decide

/-! Claim theorems. -/

/-- C1, counterexample.  On exactly the spec's end-to-end input — roster
slot (10293, T1, ENGL101!$V-PRO-3), header row at 0, single data row at
1 — the pipeline does NOT emit the claimed single update: the locator
needs two consecutive identifier rows, finds only one, and the file is
skipped with zero updates. -/
theorem C1_counterexample :
    process_consolidated_file e2eGrid "T1" e2eLegacy =
      ProcessResult.notFound ∧
    process_consolidated_file e2eGrid "T1" e2eLegacy ≠
      ProcessResult.ok [⟨"10293", "ENGL101!$V-PRO-3", decVal 87500 3⟩] := by
  decide

/-- C1, amended.  With one extra data row (a student absent from the
roster) supplying the second consecutive identifier row the locator
requires, the full per-file pipeline emits exactly one update,
GradeUpdate (10293, ENGL101!$V-PRO-3, 87.500) — `decVal 87500 3` is the
exact rational 87.500. -/
theorem C1_amended :
    process_consolidated_file e2eGrid2 "T1" e2eLegacy =
      ProcessResult.ok [⟨"10293", "ENGL101!$V-PRO-3", decVal 87500 3⟩] := by
  decide

/-- C2, counterexample.  `c2Grid` has a qualifying 2-row run in column 2
starting at row 5 and NO qualifying run (two consecutive qualifying
rows) in column 0 or 1, so the claim demands the answer (5, 2); the code
instead returns (0, 0), because the empty row 1 is skipped without
resetting the run counter of column 0. -/
theorem C2_counterexample :
    hasRunAt c2Grid 2 5 = true ∧
    (List.range c2Grid.length).all (fun r => !hasRunAt c2Grid 0 r) = true ∧
    (List.range c2Grid.length).all (fun r => !hasRunAt c2Grid 1 r) = true ∧
    find_data_start_and_id_column c2Grid = (some 0, some 0) := by decide

/-- C3, counterexample.  The locator CAN return a location whose
data-start row is 0 (no header row above it): two qualifying rows at the
very top suffice. -/
theorem C3_counterexample :
    find_data_start_and_id_column c3Grid = (some 0, some 0) := by decide

/-- C4, counterexample.  Two qualifying cells separated by a row that is
too short (empty) DO trigger a found result — the short row is skipped
without resetting the run counter — whereas the same grid with a
present non-qualifying middle cell is reported not-found (that one does
reset). -/
theorem C4_counterexample :
    find_data_start_and_id_column c4Grid = (some 0, some 0) ∧
    find_data_start_and_id_column c4GridFull = (none, none) := by decide

/-- C4, amended.  A row shorter than the scanned column index never
counts as a match, but it does NOT reset the consecutive-run counter:
the row is skipped with the run state (counter and recorded first row)
carried over unchanged, so qualifying cells separated only by such short
rows are treated as consecutive. -/
theorem C4_amended (r : List String) (rest : List (List String))
    (col rowIdx consec : Nat) (firstMatch : Option Nat)
    (hshort : r.length ≤ col) :
    scanRows (r :: rest) col rowIdx consec firstMatch =
      scanRows rest col (rowIdx + 1) consec firstMatch := by
  rw [scanRows, dif_neg (by omega)]

/-- Witness for C4: the concrete empty row is skipped with counter and
first-match row preserved. -/
theorem C4_amended_witness :
    ([] : List String).length ≤ 0 ∧
    scanRows [[], ["123"]] 0 1 1 (some 0) =
      scanRows [["123"]] 0 2 1 (some 0) :=
  ⟨by decide, C4_amended [] [["123"]] 0 1 1 (some 0) (by decide)⟩

/-- C5, code evaluated at the failing input.  A legacy slot whose
classid has NO `!$` delimiter is not skipped: `split` returns the whole
classid, the dead `except IndexError` never fires, the whole classid is
used as the component label, heuristic matching proceeds (V-PRO-3 starts
with V-, keyword 3 DAY hits) and an update IS emitted for the slot. -/
theorem C5_no_delim_slot_processed :
    componentOf "V-PRO-3" = "V-PRO-3" ∧
    process_consolidated_file c5Grid "T2" c5Legacy =
      ProcessResult.ok [⟨"20293", "V-PRO-3", decVal 775 1⟩] := by decide

/-- C3, amended.  The locator enforces no lower bound on the data-start
row (see the counterexample), but whenever the pipeline reaches the
emission stage — the result is a list of updates rather than a skip —
the located data-start row is at least 1, so a header row exists above
it: a located row 0 makes the pandas read step fail (header index -1)
and the file is skipped. -/
theorem C3_amended (grid : List (List String)) (termid : String)
    (legacy : List LegacySlot) (us : List GradeUpdate)
    (hok : process_consolidated_file grid termid legacy =
      ProcessResult.ok us) :
    ∃ r c, find_data_start_and_id_column grid = (some r, some c) ∧
      1 ≤ r := by
  rw [process_consolidated_file] at hok
  split at hok
  case _ start_row id_col_idx heq =>
    refine ⟨start_row, id_col_idx, heq, ?_⟩
    dsimp only at hok
    split at hok
    · exact absurd hok (by simp)
    · split at hok
      · exact absurd hok (by simp)
      · split at hok
        · exact absurd hok (by simp)
        · next hneg => omega
  case _ h => exact absurd hok (by simp)

/-- Witness for C3: a file that does emit (an empty roster gives the
empty update list) and whose located data-start row is 1. -/
theorem C3_amended_witness :
    ∃ r c, find_data_start_and_id_column c3wGrid = (some r, some c) ∧
      1 ≤ r :=
  C3_amended c3wGrid "T" [] [] (by decide)

/-- C6.  Whenever the header row — the grid row immediately above the
located data-start row — contains both "2 DAY" and "3 DAY" after
uppercasing and trimming, the whole file is rejected with the
requires-manual-review outcome (and hence zero updates are emitted),
regardless of the data rows below. -/
theorem C6_ambiguous_header_rejected (grid : List (List String))
    (termid : String) (legacy : List LegacySlot) (r c : Nat)
    (hdr : List String)
    (hfind : find_data_start_and_id_column grid = (some r, some c))
    (hr : 1 ≤ r)
    (hhdr : grid.get? (r - 1) = some hdr)
    (h2 : (hdr.map (fun h => pyStrip (pyUpper h))).contains "2 DAY" = true)
    (h3 : (hdr.map (fun h => pyStrip (pyUpper h))).contains "3 DAY" = true) :
    process_consolidated_file grid termid legacy =
      ProcessResult.ambiguousHeaders := by
  have hget : pyGetRow grid ((r : Int) - 1) = some hdr := by
    rw [pyGetRow, if_pos (by omega)]
    have ht : ((r : Int) - 1).toNat = r - 1 := by omega
    rw [ht, hhdr]
  rw [process_consolidated_file, hfind]
  dsimp only
  rw [hget]
  dsimp only
  rw [if_pos (by rw [h2, h3]; rfl)]

/-- Witness for C6: the mixed-case, padded "2 day " / " 3 DAY" header of
`c6Grid` sits right above the located data rows and gets the file
rejected. -/
theorem C6_witness :
    process_consolidated_file c6Grid "T3" [] =
      ProcessResult.ambiguousHeaders :=
  C6_ambiguous_header_rejected c6Grid "T3" [] 1 0
    ["ID", "2 day ", " 3 DAY"] (by decide) (by decide) (by decide)
    (by decide) (by decide)

/-- First-hit characterization of `List.findIdx?` with its index
accumulator: if position `k` holds the first element satisfying `p`, the
search started at `i` answers `i + k`. -/
theorem findIdx?_first {α : Type} (p : α → Bool) :
    ∀ (l : List α) (i k : Nat) (x : α), l.get? k = some x → p x = true →
      (∀ j y, j < k → l.get? j = some y → p y = false) →
      List.findIdx? p l i = some (i + k)
  | [], _, k, x, hget, _, _ => by simp at hget
  | a :: t, i, 0, x, hget, hp, _ => by
    simp only [List.get?] at hget
    cases hget
    rw [List.findIdx?_cons, if_pos hp, Nat.add_zero]
  | a :: t, i, k + 1, x, hget, hp, hbefore => by
    have ha : p a = false := hbefore 0 a (Nat.succ_pos k) rfl
    rw [List.findIdx?_cons, if_neg (by rw [ha]; simp)]
    have := findIdx?_first p t (i + 1) k x hget hp
      (fun j y hj hy => hbefore (j + 1) y (by omega) hy)
    rw [this]
    congr 1
    omega

/-- A successful `List.findIdx?` search started at `i` answers at least
`i` and less than `i` plus the list length. -/
theorem findIdx?_lt {α : Type} (p : α → Bool) :
    ∀ (l : List α) (i j : Nat), List.findIdx? p l i = some j →
      i ≤ j ∧ j < i + l.length
  | [], i, j, h => by simp [List.findIdx?] at h
  | a :: t, i, j, h => by
    rw [List.findIdx?_cons] at h
    by_cases hp : p a = true
    · rw [if_pos hp] at h
      cases h
      simp
    · rw [if_neg hp] at h
      have := findIdx?_lt p t (i + 1) j h
      constructor <;> [omega; (simp only [List.length_cons]; omega)]

/-- A successful keyword search answers an index below the header-list
length. -/
theorem findKeyword_lt (keys headers : List String) (i : Nat)
    (h : findKeyword keys headers = some i) : i < headers.length := by
  induction keys with
  | nil => simp [findKeyword] at h
  | cons k ks ih =>
    rw [findKeyword] at h
    split at h
    · rename_i j hj
      cases h
      have hb := findIdx?_lt (fun x => pyContains x k) headers 0 i hj
      omega
    · exact ih h

/-- A successful heuristic rule application answers an index below the
header-list length. -/
theorem applyRules_lt (s : String) (hs : List String) :
    ∀ (rs : List (List String × List String)) (i : Nat),
      applyRules s hs rs = some i → i < hs.length
  | [], i, h => by simp [applyRules] at h
  | (keys, hkeys) :: rest, i, h => by
    rw [applyRules] at h
    split at h
    · split at h
      · rename_i j hj
        cases h
        exact findKeyword_lt hkeys hs i hj
      · exact applyRules_lt s hs rest i h
    · exact applyRules_lt s hs rest i h

/-- C7, counterexample.  The claim normalizes the component label by
uppercasing AND trimming; the code (line 94) only uppercases it.  The
label " WRITING" and the header "WRITING" have equal upper-trim
normalizations, so the claim demands index 0; the code finds no exact
match (the leading space survives on the label side) and no heuristic
rule either, answering none. -/
theorem C7_counterexample :
    normHeader " WRITING" = normHeader "WRITING" ∧
    find_matching_column_index " WRITING" ["WRITING"] = none := by decide

/-- C7, amended.  The label is normalized by uppercasing only, headers
by uppercasing and trimming; if some header normalizes to exactly the
normalized label, the matcher immediately answers the index of the
first such header, short-circuiting the heuristic rules. -/
theorem C7_amended (label : String) (headers : List String) (k : Nat)
    (h : String) (hk : headers.get? k = some h)
    (heq : normHeader h = pyUpper label)
    (hbefore : ∀ j hj, j < k → headers.get? j = some hj →
      normHeader hj ≠ pyUpper label) :
    find_matching_column_index label headers = some k := by
  have hfind : List.findIdx? (fun x => x == pyUpper label)
      (headers.map normHeader) 0 = some (0 + k) := by
    apply findIdx?_first (fun x => x == pyUpper label) (headers.map normHeader)
      0 k (normHeader h)
    · rw [List.get?_map, hk]; rfl
    · simp [heq]
    · intro j y hj hy
      rw [List.get?_map] at hy
      cases hcase : headers.get? j with
      | none => rw [hcase] at hy; simp at hy
      | some hj2 =>
        rw [hcase] at hy
        rw [Option.map_some'] at hy
        cases hy
        exact beq_eq_false_iff_ne.mpr (hbefore j hj2 hj hcase)
  rw [find_matching_column_index]
  rw [hfind, Nat.zero_add]

/-- Witness for C7: the spec's own precedence example — label WRITING
against [WRITING, IEAP WRITING TEST] answers 0, not 1. -/
theorem C7_amended_witness :
    find_matching_column_index "WRITING" ["WRITING", "IEAP WRITING TEST"] =
      some 0 :=
  C7_amended "WRITING" ["WRITING", "IEAP WRITING TEST"] 0 "WRITING"
    (by decide) (by decide)
    (fun j hj hlt _ => absurd hlt (by omega))

/-- C10.  Whenever the matcher answers an index, that index is within
the candidate header list it was given; in particular, against the
headers projected from the engine's (original-index, header) candidate
list, the engine's positional lookup in that parallel list always
succeeds. -/
theorem C10_match_index_in_bounds (label : String)
    (gc : List (Nat × String)) (i : Nat)
    (h : find_matching_column_index label (gc.map Prod.snd) = some i) :
    i < gc.length ∧ (gc.get? i).isSome := by
  have hlen : i < gc.length := by
    rw [find_matching_column_index] at h
    split at h
    · rename_i j hj
      cases h
      have hb := findIdx?_lt (fun x => x == pyUpper label)
        ((gc.map Prod.snd).map normHeader) 0 i hj
      simp only [List.length_map] at hb
      omega
    · have := applyRules_lt (pyUpper label)
        ((gc.map Prod.snd).map normHeader) rules i h
      simp only [List.length_map] at this
      exact this
  refine ⟨hlen, ?_⟩
  rw [List.get?_eq_get hlen]
  rfl

/-- Empty cells never parse as a number. -/
theorem parseFloat_empty : parseFloat "" = none := rfl

/-- C9.  Given a matched legacy slot (the matcher answered index `mi`,
whose original column index is `orig`), the slot contributes exactly one
update — carrying the parsed decimal value of the trimmed cell — when
the cell at `orig` is present, non-empty after trimming and parses as a
decimal number, and contributes nothing otherwise.  The engine's output
is the concatenation of these per-(row, slot) contributions
(`processRow` / `process_consolidated_file`), so a failing cell skips
only its own (row, slot) pair and never aborts the remaining slots or
rows. -/
theorem C9_grade_emission (grade_cols : List (Nat × String))
    (row : List String) (sid : String) (slot : LegacySlot)
    (mi orig : Nat) (hname : String)
    (hmatch : find_matching_column_index (componentOf slot.classid)
      (grade_cols.map Prod.snd) = some mi)
    (hget : grade_cols.get? mi = some (orig, hname)) :
    (emitForSlot grade_cols row sid slot =
      match parseFloat (pyStrip (row.getD orig "")) with
      | some q => [⟨sid, slot.classid, q⟩]
      | none => []) ∧
    (emitForSlot grade_cols row sid slot ≠ [] ↔
      pyStrip (row.getD orig "") ≠ "" ∧
        (parseFloat (pyStrip (row.getD orig ""))).isSome) := by
  have hbody : emitForSlot grade_cols row sid slot =
      (if pyStrip (row.getD orig "") = "" then []
       else match parseFloat (pyStrip (row.getD orig "")) with
         | none => []
         | some q => [⟨sid, slot.classid, q⟩]) := by
    rw [emitForSlot]
    rw [hmatch]
    dsimp only
    rw [hget]
  by_cases hc : pyStrip (row.getD orig "") = ""
  · rw [hbody, if_pos hc, hc, parseFloat_empty]
    refine ⟨rfl, ?_⟩
    simp
  · rw [hbody, if_neg hc]
    cases hp : parseFloat (pyStrip (row.getD orig "")) with
    | none => exact ⟨rfl, by simp [hp]⟩
    | some q =>
      refine ⟨rfl, ?_⟩
      constructor
      · intro _
        exact ⟨hc, rfl⟩
      · intro _
        simp

/-- Witness for C9: the spec's grade-parse-skip example — a matched cell
holding N/A yields no update for that (row, slot) pair. -/
theorem C9_witness :
    (emitForSlot [(1, "3 DAY")] ["10293", "N/A"] "10293"
        ⟨"10293", "T1", "X!$V-1"⟩ =
      match parseFloat (pyStrip ((["10293", "N/A"] :
          List String).getD 1 "")) with
      | some q => [⟨"10293", "X!$V-1", q⟩]
      | none => []) ∧
    (emitForSlot [(1, "3 DAY")] ["10293", "N/A"] "10293"
        ⟨"10293", "T1", "X!$V-1"⟩ ≠ [] ↔
      pyStrip ((["10293", "N/A"] : List String).getD 1 "") ≠ "" ∧
        (parseFloat (pyStrip ((["10293", "N/A"] :
          List String).getD 1 ""))).isSome) :=
  C9_grade_emission [(1, "3 DAY")] ["10293", "N/A"] "10293"
    ⟨"10293", "T1", "X!$V-1"⟩ 0 1 "3 DAY" (by decide) (by decide)

/-- Witness for C10: a concrete successful match lands in bounds. -/
theorem C10_witness :
    1 < ([(0, "NAME"), (2, "3 DAY"), (4, "TOTAL")] :
      List (Nat × String)).length ∧
    (([(0, "NAME"), (2, "3 DAY"), (4, "TOTAL")] :
      List (Nat × String)).get? 1).isSome :=
  C10_match_index_in_bounds "V-PRO-3"
    [(0, "NAME"), (2, "3 DAY"), (4, "TOTAL")] 1 (by decide)

/-- A cell below the row length reads through `getD` with any default. -/
theorem getD_of_lt (r : List String) (c : Nat) (hc : c < r.length) :
    r.getD c "" = r.get ⟨c, hc⟩ := by
  rw [List.getD_eq_getElem?_getD, List.getElem?_eq_getElem hc]
  rfl

/-- One scan step of the locator when the row is long enough to hold the
scanned column. -/
theorem scanRows_cons_lt (r : List String) (rest : List (List String))
    (col rowIdx consec : Nat) (fm : Option Nat) (hc : col < r.length) :
    scanRows (r :: rest) col rowIdx consec fm =
      if isIdPattern (pyStrip (r.get ⟨col, hc⟩)) then
        if 2 ≤ consec + 1 then
          some (if consec = 0 then some rowIdx else fm)
        else scanRows rest col (rowIdx + 1) (consec + 1)
          (if consec = 0 then some rowIdx else fm)
      else scanRows rest col (rowIdx + 1) 0 none := by
  rw [scanRows, dif_pos hc]

/-- On a grid where every row reaches past column `c`, the code's column
scan started in the reset state finds exactly the first
two-consecutive-qualifying-rows run of that column. -/
theorem scanRows_rect (c : Nat) :
    ∀ (l : List (List String)), (∀ row ∈ l, c < row.length) →
      ∀ i, scanRows l c i 0 none =
        (firstRunIdx (l.map (cellQ c))).map (fun k => some (i + k))
  | [], _, _ => rfl
  | r :: rest, hlen, i => by
    have hc : c < r.length := hlen r (List.mem_cons_self r rest)
    have hq : isIdPattern (pyStrip (r.get ⟨c, hc⟩)) = cellQ c r := by
      rw [cellQ, getD_of_lt r c hc]
    rw [scanRows_cons_lt r rest c i 0 none hc, hq, List.map_cons]
    cases hqr : cellQ c r with
    | false =>
      rw [if_neg Bool.false_ne_true]
      cases rest with
      | nil => rfl
      | cons r2 rest2 =>
        have ih := scanRows_rect c (r2 :: rest2)
          (fun row hr => hlen row (List.mem_cons_of_mem r hr)) (i + 1)
        rw [ih, List.map_cons, firstRunIdx]
        rw [Bool.false_and, if_neg Bool.false_ne_true]
        cases firstRunIdx (cellQ c r2 :: rest2.map (cellQ c)) with
        | none => rfl
        | some k =>
          rw [Option.map_some', Option.map_some', Option.map_some']
          rw [show i + 1 + k = i + (k + 1) from by omega]
    | true =>
      rw [if_pos rfl, if_neg (by omega), if_pos rfl]
      cases rest with
      | nil => rfl
      | cons r2 rest2 =>
        have hc2 : c < r2.length := hlen r2 (by simp)
        have hq2 : isIdPattern (pyStrip (r2.get ⟨c, hc2⟩)) = cellQ c r2 := by
          rw [cellQ, getD_of_lt r2 c hc2]
        rw [scanRows_cons_lt r2 rest2 c (i + 1) 1 (some i) hc2, hq2,
          List.map_cons]
        cases hqr2 : cellQ c r2 with
        | true =>
          rw [if_pos rfl, if_pos (by omega), if_neg (by omega), firstRunIdx]
          rw [Bool.true_and, if_pos rfl]
          rw [Option.map_some', Nat.add_zero]
        | false =>
          rw [if_neg Bool.false_ne_true]
          have ih := scanRows_rect c (r2 :: rest2)
            (fun row hr => hlen row (List.mem_cons_of_mem r hr)) (i + 1)
          rw [scanRows_cons_lt r2 rest2 c (i + 1) 0 none hc2, hq2, hqr2,
            if_neg Bool.false_ne_true, List.map_cons, hqr2] at ih
          rw [ih, firstRunIdx]
          rw [Bool.true_and, if_neg Bool.false_ne_true]
          cases firstRunIdx (false :: rest2.map (cellQ c)) with
          | none => rfl
          | some k =>
            rw [Option.map_some', Option.map_some', Option.map_some']
            rw [show i + 1 + k = i + (k + 1) from by omega]

/-- Mapping the hit through a function commutes with the first-hit
search. -/
theorem findSome?_map_comp {α β γ : Type} (g : α → Option β) (h : β → γ) :
    ∀ l : List α,
      l.findSome? (fun a => (g a).map h) = (l.findSome? g).map h
  | [] => rfl
  | a :: t => by
    rw [List.findSome?_cons, List.findSome?_cons]
    cases g a with
    | some b => rfl
    | none => exact findSome?_map_comp g h t

/-- A nonempty grid whose rows all have width `w` has maximum width
`w`. -/
theorem maxColsOf_rect (w : Nat) :
    ∀ (grid : List (List String)), grid ≠ [] →
      (∀ row ∈ grid, row.length = w) → maxColsOf grid = w
  | [], hne, _ => absurd rfl hne
  | r :: rest, _, hrect => by
    have hr : r.length = w := hrect r (List.mem_cons_self r rest)
    cases rest with
    | nil =>
      show max r.length 0 = w
      rw [hr, Nat.max_zero]
    | cons r2 rest2 =>
      have ih := maxColsOf_rect w (r2 :: rest2) (by simp)
        (fun row hrow => hrect row (List.mem_cons_of_mem r hrow))
      show max r.length (maxColsOf (r2 :: rest2)) = w
      rw [hr, ih, Nat.max_self]

/-- The column loop on a rectangular grid is the first-hit search over the
per-column first runs. -/
theorem tryCols_rect (grid : List (List String)) (w : Nat)
    (hrect : ∀ row ∈ grid, row.length = w) :
    ∀ cs : List Nat, (∀ c ∈ cs, c < w) →
      tryCols grid cs = cs.findSome? (fun c =>
        (firstRunIdx (grid.map (cellQ c))).map
          (fun k => ((some k : Option Nat), c)))
  | [], _ => rfl
  | c :: cs2, hcs => by
    have hc : c < w := hcs c (List.mem_cons_self c cs2)
    have hcol : ∀ row ∈ grid, c < row.length := fun row hrow => by
      rw [hrect row hrow]; exact hc
    rw [tryCols, List.findSome?_cons, scanRows_rect c grid hcol 0]
    cases hfr : firstRunIdx (grid.map (cellQ c)) with
    | some k =>
      rw [Option.map_some', Option.map_some', Nat.zero_add]
    | none =>
      exact tryCols_rect grid w hrect cs2
        (fun c2 h2 => hcs c2 (List.mem_cons_of_mem c h2))

/-- C2, amended.  On every grid without ragged rows — all rows share one
width `w` — the locator behaves exactly as the claim describes: columns
are scanned in increasing order up to the maximum row width, rows top to
bottom within a column, a cell qualifies iff its trimmed text is 3-6
decimal digits, the first column containing two consecutive qualifying
rows wins with the first row of its earliest run, and absent such a
column the result is not-found.  (On ragged grids the claim fails — see
the counterexample — because a too-short row is skipped without
resetting the run.) -/
theorem C2_amended (grid : List (List String)) (w : Nat)
    (hrect : ∀ row ∈ grid, row.length = w) :
    find_data_start_and_id_column grid =
      (match specLocator grid with
       | some rc => (some rc.1, some rc.2)
       | none => (none, none)) := by
  cases grid with
  | nil => rfl
  | cons r rest =>
    have hmax : maxColsOf (r :: rest) = w :=
      maxColsOf_rect w (r :: rest) (by simp) hrect
    rw [find_data_start_and_id_column, if_neg (by simp), specLocator, hmax]
    rw [tryCols_rect (r :: rest) w hrect (List.range w)
      (fun c hcm => List.mem_range.mp hcm)]
    rw [show (List.range w).findSome? (fun c =>
        (firstRunIdx ((r :: rest).map (cellQ c))).map
          (fun k => ((some k : Option Nat), c))) =
      ((List.range w).findSome? (fun c =>
        (firstRunIdx ((r :: rest).map (cellQ c))).map
          (fun k => (k, c)))).map
        (fun rc => ((some rc.1 : Option Nat), rc.2)) from by
      rw [← findSome?_map_comp]
      congr 1
      funext c
      rw [Option.map_map]
      rfl]
    cases (List.range w).findSome? (fun c =>
        (firstRunIdx ((r :: rest).map (cellQ c))).map (fun k => (k, c))) with
    | none => rfl
    | some rc => rfl

/-- Witness for C2: on a concrete rectangular grid (identifier run in
column 1) the code and the specification's search agree. -/
theorem C2_amended_witness :
    find_data_start_and_id_column c2wGrid =
      (match specLocator c2wGrid with
       | some rc => (some rc.1, some rc.2)
       | none => (none, none)) :=
  C2_amended c2wGrid 2 (by decide)

/-- A label cannot start with members of two prefix-independent sets:
two prefixes of one string are comparable, and prefix-independence
forbids that. -/
theorem not_both_match_of_indep (s : String) (ps qs : List String)
    (hind : pfxIndep ps qs = true)
    (hp : ps.any (fun k => pyStartsWith s k) = true)
    (hq : qs.any (fun k => pyStartsWith s k) = true) : False := by
  obtain ⟨a, ha, hpa⟩ := List.any_eq_true.mp hp
  obtain ⟨b, hb, hpb⟩ := List.any_eq_true.mp hq
  have hab := List.all_eq_true.mp (List.all_eq_true.mp hind a ha) b hb
  obtain ⟨h1, h2⟩ := Bool.and_eq_true_iff.mp hab
  have hpa2 : a.data <+: s.data :=
    List.isPrefixOf_iff_prefix.mp hpa
  have hpb2 : b.data <+: s.data :=
    List.isPrefixOf_iff_prefix.mp hpb
  cases List.prefix_or_prefix_of_prefix hpa2 hpb2 with
  | inl hcon =>
    rw [List.isPrefixOf_iff_prefix.mpr hcon] at h1
    exact Bool.false_ne_true (by exact h1.symm ▸ rfl)
  | inr hcon =>
    rw [List.isPrefixOf_iff_prefix.mpr hcon] at h2
    exact Bool.false_ne_true (by exact h2.symm ▸ rfl)

/-- When no rule's label test succeeds, the rule loop returns none. -/
theorem applyRules_none (s : String) (hs : List String) :
    ∀ rs : List (List String × List String),
      (∀ rp ∈ rs, rp.1.any (fun k => pyStartsWith s k) = false) →
      applyRules s hs rs = none
  | [], _ => rfl
  | (keys, hkeys) :: rest, hno => by
    rw [applyRules]
    rw [if_neg (by
      rw [hno (keys, hkeys) (List.mem_cons_self _ _)]
      exact Bool.false_ne_true)]
    exact applyRules_none s hs rest
      (fun rp hrp => hno rp (List.mem_cons_of_mem _ hrp))

/-- On a pairwise prefix-independent rule table, the fall-through rule
loop of the code coincides with consulting only the FIRST rule whose
label test succeeds: once one rule matches, no later rule can, so a
keyword miss in the matched rule makes every remaining iteration a
no-op. -/
theorem applyRules_first_rule (s : String) (hs : List String) :
    ∀ rs : List (List String × List String), pairwiseIndep rs = true →
      applyRules s hs rs =
        (match rs.find? (fun rp => rp.1.any (fun k => pyStartsWith s k)) with
         | some rp => findKeyword rp.2 hs
         | none => none)
  | [], _ => rfl
  | (keys, hkeys) :: rest, hpw => by
    rw [pairwiseIndep] at hpw
    obtain ⟨hall, hpw2⟩ := Bool.and_eq_true_iff.mp hpw
    rw [applyRules, List.find?_cons]
    by_cases hm : keys.any (fun k => pyStartsWith s k) = true
    · rw [if_pos hm, hm]
      dsimp only
      cases hkw : findKeyword hkeys hs with
      | some i => rfl
      | none =>
        have hnomatch : ∀ rp ∈ rest,
            rp.1.any (fun k => pyStartsWith s k) = false := by
          intro rp hrp
          by_contra hne
          have hmt : rp.1.any (fun k => pyStartsWith s k) = true := by
            cases hcase : rp.1.any (fun k => pyStartsWith s k) with
            | true => rfl
            | false => exact absurd hcase hne
          exact not_both_match_of_indep s keys rp.1
            (List.all_eq_true.mp hall rp hrp) hm hmt
        exact applyRules_none s hs rest hnomatch
    · have hmf : keys.any (fun k => pyStartsWith s k) = false := by
        cases hcase : keys.any (fun k => pyStartsWith s k) with
        | true => exact absurd hcase hm
        | false => rfl
      rw [if_neg hm, hmf]
      exact applyRules_first_rule s hs rest hpw2

/-- C8.  With no exact match, the matcher behaves exactly as the claim
says: the first rule (in table order) whose prefix set matches the
uppercased label is selected; the index of the first header containing
that rule's first matching keyword is returned; if no rule's prefixes
match, or the selected rule's keywords hit no header, the result is
none — never a fallback column.  (The code's loop would fall through to
later matching rules after a keyword miss, but the concrete rule table
is pairwise prefix-independent, so at most one rule can ever match a
given label.) -/
theorem C8_no_exact_first_rule_only (label : String) (headers : List String)
    (hnoexact : (headers.map normHeader).findIdx?
      (fun h => h == pyUpper label) = none) :
    find_matching_column_index label headers =
      spec_heuristic_match (pyUpper label) (headers.map normHeader) := by
  rw [find_matching_column_index, hnoexact, spec_heuristic_match]
  exact applyRules_first_rule (pyUpper label) (headers.map normHeader) rules
    (by decide)

/-- Witness for C8: a label matching the EW- rule against a header hit
by its ESSAY keyword; the code and the first-rule-only reading agree. -/
theorem C8_witness :
    find_matching_column_index "EW-1" ["IEAP ESSAY"] =
      spec_heuristic_match (pyUpper "EW-1")
        (["IEAP ESSAY"].map normHeader) :=
  C8_no_exact_first_rule_only "EW-1" ["IEAP ESSAY"] (by decide)

end GradeCleaner
